import Mathlib

/-!
Verification of the caffeine-level time-series core of the `txn` repository
(`internal/tracker/server/server.go` and `internal/tracker/server/util.go`).

Modelling conventions:
* Go `time.Time` and `time.Duration` are modelled as `Int` nanoseconds
  (nanoseconds since Go's zero time for instants).  Go's 64-bit overflow
  does not occur for the magnitudes involved, so unbounded `Int` is used.
* Go's integer division (which truncates toward zero, as used in
  `end.Sub(start) / rangeResolution` and in the `int(...)` conversion of the
  sort comparator) is modelled with `Int.tdiv`.
* `time.Time.Truncate(d)` rounds an instant down to a multiple of `d` since
  the zero time, i.e. it subtracts the nonnegative remainder `Int.emod t d`;
  for `d ≤ 0` it returns the instant unchanged.
* `float64` arithmetic in the decay evaluator is modelled over `ℝ`
  (`math.Pow (0.5) x` becomes the real power `(0.5 : ℝ) ^ x`).
* The Go iterator loop in `rangeTimes` is modelled twice: `gridPoints`, a
  well-founded recursion whose guard carries the termination precondition
  `0 < d`, and `rangeLoopFuel`, a fuel-indexed functional that returns
  `none` while the loop is still running; the two are proved to agree
  whenever the step is positive and the fuel suffices.
* `slices.SortFunc` sorts ascending with respect to the comparator; the
  model uses a stable insertion sort with the same comparator.  Go's
  `slices.SortFunc` is unstable and, for a comparator that is not a strict
  weak order, leaves the order of comparator-ties unspecified; the model
  fixes one admissible outcome (ties keep first-appended-first order).
  Because the comparator inspects only the timestamps, and the level stored
  with each timestamp is a pure function of the timestamp and the event
  list, sorting the `(timestamp, level)` pairs is the same as sorting the
  timestamps and re-attaching the levels; the model uses the latter form so
  that the timestamp skeleton stays computable.
-/

namespace Txn

/-- `models.CaffeineEvent` (`internal/tracker/models/db.go`): `Timestamp`
in nanoseconds, dose `Amount` (mg), plus the `Description`/`Cost` fields
that the level computation never reads. -/
structure CaffeineEvent where
  Timestamp : Int
  Description : String
  Amount : Int
  Cost : Int
deriving Repr, DecidableEq

/-- The fixed resolution ladder `snapTimes` (`util.go` lines 7–21), in
nanoseconds: 1s, 5s, 10s, 30s, 1m, 5m, 10m, 30m, 1h, 2h, 6h, 12h, 24h. -/
def snapTimes : List Int :=
  [1000000000, 5000000000, 10000000000, 30000000000,
   60000000000, 300000000000, 600000000000, 1800000000000,
   3600000000000, 7200000000000, 21600000000000, 43200000000000,
   86400000000000]

/-- The indexed loop body of `snapDownDuration` (`util.go` lines 25–35):
walk the ladder with index `i`; on the first entry `snap` with
`¬ (snap < d)` return `snap` if `i = 0` and otherwise `snapTimes[i-1]`;
`none` means the loop fell through. -/
def snapDownGo (d : Int) : Nat → List Int → Option Int
  | _, [] => none
  | i, snap :: rest =>
    if snap < d then snapDownGo d (i + 1) rest
    else if i = 0 then some snap
    else some (snapTimes.getD (i - 1) 0)

/-- `snapDownDuration` (`util.go` lines 24–37): run the loop over the
ladder; if the loop falls through, return the last ladder entry. -/
def snapDownDuration (d : Int) : Int :=
  (snapDownGo d 0 snapTimes).getD (snapTimes.getD (snapTimes.length - 1) 0)

/-- `rangeResolution` (`util.go` line 40): the target number of steps. -/
def rangeResolution : Int := 250

/-- The step size `rangeTimes` computes internally (`util.go` lines 44–46):
`d := (end - start) / 250` (Go division truncates toward zero), then
snapped to the ladder. -/
def rangeStep (start endT : Int) : Int :=
  snapDownDuration (Int.tdiv (endT - start) rangeResolution)

/-- Go's `time.Time.Truncate` for `t` and duration `d`: identity for
`d ≤ 0`, otherwise round `t` down to a multiple of `d` since the zero time
(subtract the nonnegative remainder; `%` on `Int` is the Euclidean
remainder, which is nonnegative for a positive divisor, matching Go's
`Time.Truncate`). -/
def goTruncate (t d : Int) : Int :=
  if d ≤ 0 then t else t - t % d

/-- The yield loop of `rangeTimes` (`util.go` lines 49–58): emit `t` while
`t < endT` stepping by `d`, then emit one final point.  The conjunct
`0 < d` in the guard carries the termination measure; `rangeTimes` only
ever instantiates `d` with a ladder member, which is positive. -/
def gridPoints (d endT t : Int) : List Int :=
  if _h : 0 < d ∧ t < endT then t :: gridPoints d endT (t + d) else [t]
termination_by (endT - t).toNat
decreasing_by omega

/-- The same loop as a fuel-indexed functional, faithful to the Go
iterator also for a non-positive step: `none` means the fuel ran out with
the loop still running. -/
def rangeLoopFuel : Nat → Int → Int → Int → Option (List Int)
  | 0, _, _, _ => none
  | fuel + 1, d, endT, t =>
    if t < endT then (rangeLoopFuel fuel d endT (t + d)).map (t :: ·)
    else some [t]

/-- `rangeTimes` (`util.go` lines 43–59): compute the step from the span,
truncate `start` to a step boundary, and run the yield loop. -/
def rangeTimes (start endT : Int) : List Int :=
  gridPoints (rangeStep start endT) endT (goTruncate start (rangeStep start endT))

/-- The sort comparator of `calculateCaffeineLevels` (`server.go` lines
202–204 and 230–232): `int(a.Timestamp.Sub(b.Timestamp).Seconds())`, i.e.
the timestamp difference in nanoseconds divided by 1e9, truncated toward
zero. -/
def levelCmp (a b : Int) : Int := Int.tdiv (a - b) 1000000000

/-- `a` may be placed before `b` by the sort: `levelCmp a b ≤ 0`. -/
def levelLe (a b : Int) : Bool := levelCmp a b ≤ 0

/-- Insert `x` into `l` before the first element `y` with `levelLe x y`. -/
def insertCmp (x : Int) : List Int → List Int
  | [] => [x]
  | y :: ys => if levelLe x y then x :: y :: ys else y :: insertCmp x ys

/-- Stable insertion sort with the comparator `levelCmp`; one admissible
outcome of `slices.SortFunc` with that comparator (ties keep input
order). -/
def sortCmp : List Int → List Int
  | [] => []
  | x :: xs => insertCmp x (sortCmp xs)

/-- The knot timestamps appended in the second loop of
`calculateCaffeineLevels` (`server.go` lines 208–228): for each fetched
event, its exact timestamp and the instant one minute before it. -/
def knotTimes (events : List CaffeineEvent) : List Int :=
  events.flatMap (fun e => [e.Timestamp, e.Timestamp - 60000000000])

/-- The timestamp skeleton of `calculateCaffeineLevels`: the uniform grid,
sorted (`server.go` line 202), then the knots appended and the whole list
sorted again (`server.go` line 230). -/
def seriesTimes (start endT : Int) (events : List CaffeineEvent) : List Int :=
  sortCmp (sortCmp (rangeTimes start endT) ++ knotTimes events)

/-- `calculateCaffeineLevel` (`server.go` lines 247–253): a single event's
contribution; `hours` is the elapsed duration in fractional hours and the
decay is `amount * 0.5 ^ (hours / halfLife)`, clamped to `0` for a
negative elapsed time. -/
noncomputable def calculateCaffeineLevel (amount : Int) (halfLife : ℝ)
    (elapsed : Int) : ℝ :=
  let hours : ℝ := (elapsed : ℝ) / 3600000000000
  if hours < 0 then 0 else (amount : ℝ) * (0.5 : ℝ) ^ (hours / halfLife)

/-- `calculateSumCaffeineLevel` (`server.go` lines 238–245): sum the
per-event contributions at instant `t`. -/
noncomputable def calculateSumCaffeineLevel (halfLife : ℝ) (t : Int)
    (events : List CaffeineEvent) : ℝ :=
  events.foldl
    (fun acc e => acc + calculateCaffeineLevel e.Amount halfLife (t - e.Timestamp)) 0

/-- The half-life constant of `calculateCaffeineLevels` (`server.go` line
188), in hours. -/
def halfLifeHours : ℝ := 4

/-- The lookback of the event fetch (`server.go` line 191): 72 hours in
nanoseconds. -/
def lookback : Int := 259200000000000

/-- `calculateCaffeineLevels` (`server.go` lines 187–236).  The event
store (`s.db.GetEvents`) is abstracted as the function `db`; the code
fetches the extended window `[start - 72h, end]` and never filters the
fetched events afterwards.  Each output sample pairs a timestamp of the
sorted skeleton with the level at that timestamp (see the file header for
why carrying the levels through the sort is equivalent). -/
noncomputable def calculateCaffeineLevels (db : Int → Int → List CaffeineEvent)
    (start endT : Int) : List (Int × ℝ) :=
  let events := db (start - lookback) endT
  (seriesTimes start endT events).map
    (fun t => (t, calculateSumCaffeineLevel halfLifeHours t events))

/-- Modelled from the spec (§4.1, claim C2's words): the largest ladder
entry less than or equal to `d`; the smallest entry when none qualifies
(`getLastD` default), and — since a filter keeping every entry ends with
the last one — the largest entry when `d` exceeds the whole ladder. -/
def specSnapLE (d : Int) : Int :=
  (snapTimes.filter (fun s => s ≤ d)).getLastD 1000000000

/-- The behaviour the code actually implements (amended form of C2): the
largest ladder entry strictly less than `d`, with the same floor and
ceiling behaviour. -/
def specSnapLT (d : Int) : Int :=
  (snapTimes.filter (fun s => s < d)).getLastD 1000000000

/-- An event store that returns no events, used at concrete inputs. -/
def emptyDB : Int → Int → List CaffeineEvent := fun _ _ => []

/-- A one-event store whose event has a sub-second timestamp (10.5 s). -/
def subSecondDB : Int → Int → List CaffeineEvent :=
  fun _ _ => [⟨10500000000, "espresso", 80, 0⟩]

/-- The event used to refute C7 as stated: it fires exactly at `t2`. -/
def eventsC7 : List CaffeineEvent := [⟨3600000000000, "flat white", 100, 450⟩]

/-- The event used for the C7 witness: it fires at time zero. -/
def eventsC7W : List CaffeineEvent := [⟨0, "espresso", 100, 0⟩]

/-- An event store whose single event is on a whole second. -/
def wholeSecondDB : Int → Int → List CaffeineEvent :=
  fun _ _ => [⟨12000000000, "latte", 160, 250⟩]

/-- The event fetched for the C10 witness: one hour before the window. -/
def eEarly : CaffeineEvent := ⟨-3600000000000, "earlier", 90, 0⟩

/-- An event store returning only `eEarly` (it lies inside the extended
lookback window of the witness's query). -/
def earlyEventDB : Int → Int → List CaffeineEvent := fun _ _ => [eEarly]

/-- `getLastD` returns the default or a member of the list. -/
lemma getLastD_or (l : List Int) (dflt : Int) :
    l.getLastD dflt = dflt ∨ l.getLastD dflt ∈ l := by
  induction l generalizing dflt with
  | nil => exact Or.inl rfl
  | cons a l ih =>
    rw [List.getLastD_cons]
    rcases ih a with h | h
    · rw [h]; exact Or.inr (List.mem_cons_self a l)
    · exact Or.inr (List.mem_cons_of_mem a h)

/-- The spec-side snap value is always a ladder member. -/
lemma specSnapLT_mem (d : Int) : specSnapLT d ∈ snapTimes := by
  unfold specSnapLT
  rcases getLastD_or (snapTimes.filter (fun s => s < d)) 1000000000 with h | h
  · rw [h]; decide
  · exact (List.mem_filter.1 h).1

/-- Every ladder member lies between 1 second and 24 hours. -/
lemma mem_snapTimes_bounds : ∀ x ∈ snapTimes,
    (1000000000 : Int) ≤ x ∧ x ≤ 86400000000000 := by decide

/-- Every ladder member is a whole number of seconds. -/
lemma mem_snapTimes_dvd : ∀ x ∈ snapTimes, (1000000000 : Int) ∣ x := by decide

/-- The loop of `snapDownDuration` returns exactly the largest ladder entry strictly below `d` (with the 1-second floor and 24-hour ceiling). -/
theorem snapDown_eq_specLT (d : Int) : snapDownDuration d = specSnapLT d := by
  rcases le_or_lt d 1000000000 with h0 | h0
  · have g1 : ¬((1000000000:Int) < d) := by omega
    have g2 : ¬((5000000000:Int) < d) := by omega
    have g3 : ¬((10000000000:Int) < d) := by omega
    have g4 : ¬((30000000000:Int) < d) := by omega
    have g5 : ¬((60000000000:Int) < d) := by omega
    have g6 : ¬((300000000000:Int) < d) := by omega
    have g7 : ¬((600000000000:Int) < d) := by omega
    have g8 : ¬((1800000000000:Int) < d) := by omega
    have g9 : ¬((3600000000000:Int) < d) := by omega
    have g10 : ¬((7200000000000:Int) < d) := by omega
    have g11 : ¬((21600000000000:Int) < d) := by omega
    have g12 : ¬((43200000000000:Int) < d) := by omega
    have g13 : ¬((86400000000000:Int) < d) := by omega
    simp [snapDownDuration, specSnapLT, snapTimes, snapDownGo, List.filter, List.getD, g1, g2, g3, g4, g5, g6, g7, g8, g9, g10, g11, g12, g13]
  rcases le_or_lt d 5000000000 with h1 | h1
  · have g1 : (1000000000:Int) < d := by omega
    have g2 : ¬((5000000000:Int) < d) := by omega
    have g3 : ¬((10000000000:Int) < d) := by omega
    have g4 : ¬((30000000000:Int) < d) := by omega
    have g5 : ¬((60000000000:Int) < d) := by omega
    have g6 : ¬((300000000000:Int) < d) := by omega
    have g7 : ¬((600000000000:Int) < d) := by omega
    have g8 : ¬((1800000000000:Int) < d) := by omega
    have g9 : ¬((3600000000000:Int) < d) := by omega
    have g10 : ¬((7200000000000:Int) < d) := by omega
    have g11 : ¬((21600000000000:Int) < d) := by omega
    have g12 : ¬((43200000000000:Int) < d) := by omega
    have g13 : ¬((86400000000000:Int) < d) := by omega
    simp [snapDownDuration, specSnapLT, snapTimes, snapDownGo, List.filter, List.getD, g1, g2, g3, g4, g5, g6, g7, g8, g9, g10, g11, g12, g13]
  rcases le_or_lt d 10000000000 with h2 | h2
  · have g1 : (1000000000:Int) < d := by omega
    have g2 : (5000000000:Int) < d := by omega
    have g3 : ¬((10000000000:Int) < d) := by omega
    have g4 : ¬((30000000000:Int) < d) := by omega
    have g5 : ¬((60000000000:Int) < d) := by omega
    have g6 : ¬((300000000000:Int) < d) := by omega
    have g7 : ¬((600000000000:Int) < d) := by omega
    have g8 : ¬((1800000000000:Int) < d) := by omega
    have g9 : ¬((3600000000000:Int) < d) := by omega
    have g10 : ¬((7200000000000:Int) < d) := by omega
    have g11 : ¬((21600000000000:Int) < d) := by omega
    have g12 : ¬((43200000000000:Int) < d) := by omega
    have g13 : ¬((86400000000000:Int) < d) := by omega
    simp [snapDownDuration, specSnapLT, snapTimes, snapDownGo, List.filter, List.getD, g1, g2, g3, g4, g5, g6, g7, g8, g9, g10, g11, g12, g13]
  rcases le_or_lt d 30000000000 with h3 | h3
  · have g1 : (1000000000:Int) < d := by omega
    have g2 : (5000000000:Int) < d := by omega
    have g3 : (10000000000:Int) < d := by omega
    have g4 : ¬((30000000000:Int) < d) := by omega
    have g5 : ¬((60000000000:Int) < d) := by omega
    have g6 : ¬((300000000000:Int) < d) := by omega
    have g7 : ¬((600000000000:Int) < d) := by omega
    have g8 : ¬((1800000000000:Int) < d) := by omega
    have g9 : ¬((3600000000000:Int) < d) := by omega
    have g10 : ¬((7200000000000:Int) < d) := by omega
    have g11 : ¬((21600000000000:Int) < d) := by omega
    have g12 : ¬((43200000000000:Int) < d) := by omega
    have g13 : ¬((86400000000000:Int) < d) := by omega
    simp [snapDownDuration, specSnapLT, snapTimes, snapDownGo, List.filter, List.getD, g1, g2, g3, g4, g5, g6, g7, g8, g9, g10, g11, g12, g13]
  rcases le_or_lt d 60000000000 with h4 | h4
  · have g1 : (1000000000:Int) < d := by omega
    have g2 : (5000000000:Int) < d := by omega
    have g3 : (10000000000:Int) < d := by omega
    have g4 : (30000000000:Int) < d := by omega
    have g5 : ¬((60000000000:Int) < d) := by omega
    have g6 : ¬((300000000000:Int) < d) := by omega
    have g7 : ¬((600000000000:Int) < d) := by omega
    have g8 : ¬((1800000000000:Int) < d) := by omega
    have g9 : ¬((3600000000000:Int) < d) := by omega
    have g10 : ¬((7200000000000:Int) < d) := by omega
    have g11 : ¬((21600000000000:Int) < d) := by omega
    have g12 : ¬((43200000000000:Int) < d) := by omega
    have g13 : ¬((86400000000000:Int) < d) := by omega
    simp [snapDownDuration, specSnapLT, snapTimes, snapDownGo, List.filter, List.getD, g1, g2, g3, g4, g5, g6, g7, g8, g9, g10, g11, g12, g13]
  rcases le_or_lt d 300000000000 with h5 | h5
  · have g1 : (1000000000:Int) < d := by omega
    have g2 : (5000000000:Int) < d := by omega
    have g3 : (10000000000:Int) < d := by omega
    have g4 : (30000000000:Int) < d := by omega
    have g5 : (60000000000:Int) < d := by omega
    have g6 : ¬((300000000000:Int) < d) := by omega
    have g7 : ¬((600000000000:Int) < d) := by omega
    have g8 : ¬((1800000000000:Int) < d) := by omega
    have g9 : ¬((3600000000000:Int) < d) := by omega
    have g10 : ¬((7200000000000:Int) < d) := by omega
    have g11 : ¬((21600000000000:Int) < d) := by omega
    have g12 : ¬((43200000000000:Int) < d) := by omega
    have g13 : ¬((86400000000000:Int) < d) := by omega
    simp [snapDownDuration, specSnapLT, snapTimes, snapDownGo, List.filter, List.getD, g1, g2, g3, g4, g5, g6, g7, g8, g9, g10, g11, g12, g13]
  rcases le_or_lt d 600000000000 with h6 | h6
  · have g1 : (1000000000:Int) < d := by omega
    have g2 : (5000000000:Int) < d := by omega
    have g3 : (10000000000:Int) < d := by omega
    have g4 : (30000000000:Int) < d := by omega
    have g5 : (60000000000:Int) < d := by omega
    have g6 : (300000000000:Int) < d := by omega
    have g7 : ¬((600000000000:Int) < d) := by omega
    have g8 : ¬((1800000000000:Int) < d) := by omega
    have g9 : ¬((3600000000000:Int) < d) := by omega
    have g10 : ¬((7200000000000:Int) < d) := by omega
    have g11 : ¬((21600000000000:Int) < d) := by omega
    have g12 : ¬((43200000000000:Int) < d) := by omega
    have g13 : ¬((86400000000000:Int) < d) := by omega
    simp [snapDownDuration, specSnapLT, snapTimes, snapDownGo, List.filter, List.getD, g1, g2, g3, g4, g5, g6, g7, g8, g9, g10, g11, g12, g13]
  rcases le_or_lt d 1800000000000 with h7 | h7
  · have g1 : (1000000000:Int) < d := by omega
    have g2 : (5000000000:Int) < d := by omega
    have g3 : (10000000000:Int) < d := by omega
    have g4 : (30000000000:Int) < d := by omega
    have g5 : (60000000000:Int) < d := by omega
    have g6 : (300000000000:Int) < d := by omega
    have g7 : (600000000000:Int) < d := by omega
    have g8 : ¬((1800000000000:Int) < d) := by omega
    have g9 : ¬((3600000000000:Int) < d) := by omega
    have g10 : ¬((7200000000000:Int) < d) := by omega
    have g11 : ¬((21600000000000:Int) < d) := by omega
    have g12 : ¬((43200000000000:Int) < d) := by omega
    have g13 : ¬((86400000000000:Int) < d) := by omega
    simp [snapDownDuration, specSnapLT, snapTimes, snapDownGo, List.filter, List.getD, g1, g2, g3, g4, g5, g6, g7, g8, g9, g10, g11, g12, g13]
  rcases le_or_lt d 3600000000000 with h8 | h8
  · have g1 : (1000000000:Int) < d := by omega
    have g2 : (5000000000:Int) < d := by omega
    have g3 : (10000000000:Int) < d := by omega
    have g4 : (30000000000:Int) < d := by omega
    have g5 : (60000000000:Int) < d := by omega
    have g6 : (300000000000:Int) < d := by omega
    have g7 : (600000000000:Int) < d := by omega
    have g8 : (1800000000000:Int) < d := by omega
    have g9 : ¬((3600000000000:Int) < d) := by omega
    have g10 : ¬((7200000000000:Int) < d) := by omega
    have g11 : ¬((21600000000000:Int) < d) := by omega
    have g12 : ¬((43200000000000:Int) < d) := by omega
    have g13 : ¬((86400000000000:Int) < d) := by omega
    simp [snapDownDuration, specSnapLT, snapTimes, snapDownGo, List.filter, List.getD, g1, g2, g3, g4, g5, g6, g7, g8, g9, g10, g11, g12, g13]
  rcases le_or_lt d 7200000000000 with h9 | h9
  · have g1 : (1000000000:Int) < d := by omega
    have g2 : (5000000000:Int) < d := by omega
    have g3 : (10000000000:Int) < d := by omega
    have g4 : (30000000000:Int) < d := by omega
    have g5 : (60000000000:Int) < d := by omega
    have g6 : (300000000000:Int) < d := by omega
    have g7 : (600000000000:Int) < d := by omega
    have g8 : (1800000000000:Int) < d := by omega
    have g9 : (3600000000000:Int) < d := by omega
    have g10 : ¬((7200000000000:Int) < d) := by omega
    have g11 : ¬((21600000000000:Int) < d) := by omega
    have g12 : ¬((43200000000000:Int) < d) := by omega
    have g13 : ¬((86400000000000:Int) < d) := by omega
    simp [snapDownDuration, specSnapLT, snapTimes, snapDownGo, List.filter, List.getD, g1, g2, g3, g4, g5, g6, g7, g8, g9, g10, g11, g12, g13]
  rcases le_or_lt d 21600000000000 with h10 | h10
  · have g1 : (1000000000:Int) < d := by omega
    have g2 : (5000000000:Int) < d := by omega
    have g3 : (10000000000:Int) < d := by omega
    have g4 : (30000000000:Int) < d := by omega
    have g5 : (60000000000:Int) < d := by omega
    have g6 : (300000000000:Int) < d := by omega
    have g7 : (600000000000:Int) < d := by omega
    have g8 : (1800000000000:Int) < d := by omega
    have g9 : (3600000000000:Int) < d := by omega
    have g10 : (7200000000000:Int) < d := by omega
    have g11 : ¬((21600000000000:Int) < d) := by omega
    have g12 : ¬((43200000000000:Int) < d) := by omega
    have g13 : ¬((86400000000000:Int) < d) := by omega
    simp [snapDownDuration, specSnapLT, snapTimes, snapDownGo, List.filter, List.getD, g1, g2, g3, g4, g5, g6, g7, g8, g9, g10, g11, g12, g13]
  rcases le_or_lt d 43200000000000 with h11 | h11
  · have g1 : (1000000000:Int) < d := by omega
    have g2 : (5000000000:Int) < d := by omega
    have g3 : (10000000000:Int) < d := by omega
    have g4 : (30000000000:Int) < d := by omega
    have g5 : (60000000000:Int) < d := by omega
    have g6 : (300000000000:Int) < d := by omega
    have g7 : (600000000000:Int) < d := by omega
    have g8 : (1800000000000:Int) < d := by omega
    have g9 : (3600000000000:Int) < d := by omega
    have g10 : (7200000000000:Int) < d := by omega
    have g11 : (21600000000000:Int) < d := by omega
    have g12 : ¬((43200000000000:Int) < d) := by omega
    have g13 : ¬((86400000000000:Int) < d) := by omega
    simp [snapDownDuration, specSnapLT, snapTimes, snapDownGo, List.filter, List.getD, g1, g2, g3, g4, g5, g6, g7, g8, g9, g10, g11, g12, g13]
  rcases le_or_lt d 86400000000000 with h12 | h12
  · have g1 : (1000000000:Int) < d := by omega
    have g2 : (5000000000:Int) < d := by omega
    have g3 : (10000000000:Int) < d := by omega
    have g4 : (30000000000:Int) < d := by omega
    have g5 : (60000000000:Int) < d := by omega
    have g6 : (300000000000:Int) < d := by omega
    have g7 : (600000000000:Int) < d := by omega
    have g8 : (1800000000000:Int) < d := by omega
    have g9 : (3600000000000:Int) < d := by omega
    have g10 : (7200000000000:Int) < d := by omega
    have g11 : (21600000000000:Int) < d := by omega
    have g12 : (43200000000000:Int) < d := by omega
    have g13 : ¬((86400000000000:Int) < d) := by omega
    simp [snapDownDuration, specSnapLT, snapTimes, snapDownGo, List.filter, List.getD, g1, g2, g3, g4, g5, g6, g7, g8, g9, g10, g11, g12, g13]
  · have g1 : (1000000000:Int) < d := by omega
    have g2 : (5000000000:Int) < d := by omega
    have g3 : (10000000000:Int) < d := by omega
    have g4 : (30000000000:Int) < d := by omega
    have g5 : (60000000000:Int) < d := by omega
    have g6 : (300000000000:Int) < d := by omega
    have g7 : (600000000000:Int) < d := by omega
    have g8 : (1800000000000:Int) < d := by omega
    have g9 : (3600000000000:Int) < d := by omega
    have g10 : (7200000000000:Int) < d := by omega
    have g11 : (21600000000000:Int) < d := by omega
    have g12 : (43200000000000:Int) < d := by omega
    have g13 : (86400000000000:Int) < d := by omega
    simp [snapDownDuration, specSnapLT, snapTimes, snapDownGo, List.filter, List.getD, g1, g2, g3, g4, g5, g6, g7, g8, g9, g10, g11, g12, g13]

/-- The code's snap value is always a ladder member. -/
lemma snapDown_mem (d : Int) : snapDownDuration d ∈ snapTimes := by
  rw [snapDown_eq_specLT]; exact specSnapLT_mem d

/-- The code's snap value is at least one second, hence positive. -/
lemma snapDown_pos (d : Int) : 0 < snapDownDuration d := by
  have h := (mem_snapTimes_bounds _ (snapDown_mem d)).1
  omega

/-- The internally selected grid step is positive for every span. -/
lemma rangeStep_pos (start endT : Int) : 0 < rangeStep start endT :=
  snapDown_pos _


/-- One loop iteration: with a positive step and `t` before the end, the
grid is `t` followed by the grid from `t + d`. -/
lemma gridPoints_step (d endT t : Int) (hd : 0 < d) (ht : t < endT) :
    gridPoints d endT t = t :: gridPoints d endT (t + d) := by
  rw [gridPoints.eq_def, dif_pos ⟨hd, ht⟩]

/-- Loop exit: the final extra point is emitted alone. -/
lemma gridPoints_stop (d endT t : Int) (ht : ¬ (0 < d ∧ t < endT)) :
    gridPoints d endT t = [t] := by
  rw [gridPoints.eq_def, dif_neg ht]

/-- The grid always contains at least the final point. -/
lemma gridPoints_ne_nil (d endT t : Int) : gridPoints d endT t ≠ [] := by
  rw [gridPoints.eq_def]; split <;> simp

/-- With a positive step, the fuelled loop yields exactly `gridPoints`
once the fuel exceeds the remaining distance. -/
lemma rangeLoopFuel_eq (d : Int) (hd : 0 < d) :
    ∀ fuel : ℕ, ∀ endT t : Int, (endT - t).toNat < fuel →
      rangeLoopFuel fuel d endT t = some (gridPoints d endT t) := by
  intro fuel
  induction fuel with
  | zero => intro endT t h; omega
  | succ n ih =>
    intro endT t h
    by_cases ht : t < endT
    · rw [rangeLoopFuel, if_pos ht, ih endT (t + d) (by omega),
        gridPoints_step d endT t hd ht]
      rfl
    · rw [rangeLoopFuel, if_neg ht, gridPoints_stop d endT t (by tauto)]

/-- Structure of the emitted grid, by induction on the remaining distance:
the first point is `t`; the last point is at or after the end; consecutive
points differ by the step; every point but the last is strictly before the
end; and every point is `t` plus a whole number of steps. -/
lemma gridPoints_props (d : Int) (hd : 0 < d) :
    ∀ n : ℕ, ∀ endT t : Int, (endT - t).toNat ≤ n →
      (gridPoints d endT t).head? = some t ∧
      (∀ z, (gridPoints d endT t).getLast? = some z → endT ≤ z) ∧
      List.Chain' (fun a b => b = a + d) (gridPoints d endT t) ∧
      (∀ x ∈ (gridPoints d endT t).dropLast, x < endT) ∧
      (∀ x ∈ gridPoints d endT t, ∃ k : ℕ, x = t + k * d) := by
  intro n
  induction n with
  | zero =>
    intro endT t h
    have ht : ¬ t < endT := by omega
    rw [gridPoints_stop d endT t (by tauto)]
    refine ⟨rfl, ?_, ?_, ?_, ?_⟩
    · intro z hz; simp at hz; omega
    · simp
    · simp
    · intro x hx; simp at hx; exact ⟨0, by omega⟩
  | succ n ih =>
    intro endT t h
    by_cases ht : t < endT
    · obtain ⟨ih1, ih2, ih3, ih4, ih5⟩ := ih endT (t + d) (by omega)
      have hne : gridPoints d endT (t + d) ≠ [] := gridPoints_ne_nil d endT (t + d)
      rw [gridPoints_step d endT t hd ht]
      refine ⟨rfl, ?_, ?_, ?_, ?_⟩
      · intro z hz
        cases hl : gridPoints d endT (t + d) with
        | nil => exact absurd hl hne
        | cons a l =>
          rw [hl, List.getLast?_cons_cons] at hz
          exact ih2 z (by rw [hl]; exact hz)
      · rw [List.chain'_cons']
        refine ⟨?_, ih3⟩
        intro b hb
        rw [ih1] at hb
        simp at hb
        omega
      · rw [List.dropLast_cons_of_ne_nil hne]
        intro x hx
        rcases List.mem_cons.1 hx with rfl | hx
        · exact ht
        · exact ih4 x hx
      · intro x hx
        rcases List.mem_cons.1 hx with rfl | hx
        · exact ⟨0, by omega⟩
        · obtain ⟨k, hk⟩ := ih5 x hx
          exact ⟨k + 1, by rw [hk]; push_cast; ring⟩
    · rw [gridPoints_stop d endT t (by tauto)]
      refine ⟨rfl, ?_, ?_, ?_, ?_⟩
      · intro z hz; simp at hz; omega
      · simp
      · simp
      · intro x hx; simp at hx; exact ⟨0, by omega⟩

/-- Truncation never moves an instant forward. -/
lemma goTruncate_le (t d : Int) (hd : 0 < d) : goTruncate t d ≤ t := by
  unfold goTruncate
  rw [if_neg (by omega)]
  have := Int.emod_nonneg t (by omega : d ≠ 0)
  omega

/-- Truncation lands on a multiple of the step. -/
lemma goTruncate_dvd (t d : Int) (hd : 0 < d) : d ∣ goTruncate t d := by
  unfold goTruncate
  rw [if_neg (by omega)]
  refine ⟨t / d, ?_⟩
  have := Int.ediv_add_emod t d
  linarith


lemma length_insertCmp (x : Int) (l : List Int) :
    (insertCmp x l).length = l.length + 1 := by
  induction l with
  | nil => rfl
  | cons y ys ih => simp only [insertCmp]; split <;> simp [ih]

lemma length_sortCmp (l : List Int) : (sortCmp l).length = l.length := by
  induction l with
  | nil => rfl
  | cons x xs ih => simp only [sortCmp, length_insertCmp, ih, List.length_cons]

lemma sortCmp_ne_nil (l : List Int) (h : l ≠ []) : sortCmp l ≠ [] := by
  intro hn
  apply h
  have hl : l.length = 0 := by rw [← length_sortCmp, hn]; rfl
  exact List.length_eq_zero.1 hl

lemma seriesTimes_ne_nil (start endT : Int) (events : List CaffeineEvent) :
    seriesTimes start endT events ≠ [] := by
  unfold seriesTimes
  apply sortCmp_ne_nil
  have h1 : sortCmp (rangeTimes start endT) ≠ [] :=
    sortCmp_ne_nil _ (gridPoints_ne_nil (rangeStep start endT) endT
      (goTruncate start (rangeStep start endT)))
  exact fun hn => h1 (List.append_eq_nil.1 hn).1

/-- C2 counterexample: at `d` = 5 minutes — itself a ladder entry — the
code returns 1 minute, not the largest ladder entry `≤ d` (which would be
5 minutes), refuting the "less than or equal" policy of the claim. -/
theorem c2_counterexample :
    snapDownDuration 300000000000 ≠ specSnapLE 300000000000 ∧
    snapDownDuration 300000000000 = 60000000000 ∧
    specSnapLE 300000000000 = 300000000000 ∧
    (300000000000 : Int) ∈ snapTimes := by decide

/-- C2 (amended): for every duration `d` the selector returns the largest
ladder entry strictly less than `d` (the smallest entry when no entry is
below `d`, the largest when all are); for a 24-hour span the target
spacing is 345.6 s and the selected resolution is 5 minutes. -/
theorem c2_snap_down_policy :
    (∀ d : Int, snapDownDuration d = specSnapLT d) ∧
    Int.tdiv 86400000000000 rangeResolution = 345600000000 ∧
    rangeStep 0 86400000000000 = 300000000000 :=
  ⟨snapDown_eq_specLT, by decide, by decide⟩

/-- C9: the selector always returns a ladder member, between 1 second and
24 hours; consequently the grid loop, run with the internally selected
step, terminates (enough fuel makes the fuelled loop yield the full
finite grid). -/
theorem c9_ladder_member_and_termination :
    (∀ d : Int, snapDownDuration d ∈ snapTimes ∧
      1000000000 ≤ snapDownDuration d ∧ snapDownDuration d ≤ 86400000000000) ∧
    (∀ start endT : Int, ∃ fuel : ℕ,
      rangeLoopFuel fuel (rangeStep start endT) endT
        (goTruncate start (rangeStep start endT)) = some (rangeTimes start endT)) := by
  constructor
  · intro d
    have hm := snapDown_mem d
    have hb := mem_snapTimes_bounds _ hm
    exact ⟨hm, hb.1, hb.2⟩
  · intro s e
    refine ⟨(e - goTruncate s (rangeStep s e)).toNat + 1, ?_⟩
    exact rangeLoopFuel_eq _ (rangeStep_pos s e) _ _ _ (by omega)

/-- C8 (amended): the grid generator takes no resolution argument and has
no `InvalidResolution` error; its internally selected step is always
positive, and were the step zero the loop would never exit (for any
amount of fuel the fuelled loop yields nothing). -/
theorem c8_no_zero_step :
    (∀ start endT : Int, 0 < rangeStep start endT) ∧
    (∀ (fuel : ℕ) (endT t : Int), t < endT → rangeLoopFuel fuel 0 endT t = none) := by
  refine ⟨rangeStep_pos, ?_⟩
  intro fuel endT t ht
  induction fuel with
  | zero => rfl
  | succ n ih =>
    rw [rangeLoopFuel, if_pos ht, show t + (0:Int) = t by ring, ih]
    rfl

/-- C8 counterexample: invoked with a zero step the loop neither fails
nor finishes — after 50 iterations it is still running and no error value
exists to return. -/
theorem c8_counterexample : rangeLoopFuel 50 0 1000000000 0 = none := by decide

/-- C8 witness: the zero-step non-progress fact at a concrete instance. -/
theorem c8_no_zero_step_witness :
    (0:Int) < 1000000000 ∧ rangeLoopFuel 7 0 1000000000 0 = none :=
  ⟨by norm_num, c8_no_zero_step.2 7 1000000000 0 (by norm_num)⟩

/-- C5: for `start < end` the grid starts at `start` truncated down to a
step boundary (hence at or before `start`), consecutive points differ by
the selected step, every point but the last is strictly before `end`, and
the final point is at or after `end`. -/
theorem c5_grid_coverage (start endT : Int) (_hlt : start < endT) :
    (rangeTimes start endT).head? = some (goTruncate start (rangeStep start endT)) ∧
    goTruncate start (rangeStep start endT) ≤ start ∧
    (∀ z, (rangeTimes start endT).getLast? = some z → endT ≤ z) ∧
    List.Chain' (fun a b => b = a + rangeStep start endT) (rangeTimes start endT) ∧
    (∀ x ∈ (rangeTimes start endT).dropLast, x < endT) := by
  have hd := rangeStep_pos start endT
  obtain ⟨h1, h2, h3, h4, _⟩ := gridPoints_props (rangeStep start endT) hd
    ((endT - goTruncate start (rangeStep start endT)).toNat) endT
    (goTruncate start (rangeStep start endT)) le_rfl
  exact ⟨h1, goTruncate_le start _ hd, h2, h3, h4⟩

/-- C5 witness at the 24-hour window `[0, 24h]`. -/
theorem c5_grid_coverage_witness :
    (0:Int) < 86400000000000 ∧
    (∀ z, (rangeTimes 0 86400000000000).getLast? = some z → 86400000000000 ≤ z) ∧
    (∀ x ∈ (rangeTimes 0 86400000000000).dropLast, x < 86400000000000) :=
  ⟨by norm_num, (c5_grid_coverage 0 86400000000000 (by norm_num)).2.2.1,
    (c5_grid_coverage 0 86400000000000 (by norm_num)).2.2.2.2⟩

/-- C3 (amended): for `end ≤ start` the series builder does not fail — no
`InvalidRange` error exists in the code — and still returns a non-empty
series. -/
theorem c3_no_invalid_range (db : Int → Int → List CaffeineEvent)
    (start endT : Int) (_hle : endT ≤ start) :
    calculateCaffeineLevels db start endT ≠ [] := by
  simp only [calculateCaffeineLevels]
  intro h
  exact seriesTimes_ne_nil start endT _ (List.map_eq_nil_iff.1 h)

/-- C3 counterexample: with `end < start` (and no events) the builder
returns the one-sample series, not an error. -/
theorem c3_counterexample :
    calculateCaffeineLevels emptyDB 1000000000 0 = [(1000000000, 0)] := by
  have hr : rangeTimes 1000000000 0 = [1000000000] := by
    have h1 : rangeStep 1000000000 0 = 1000000000 := by decide
    unfold rangeTimes
    rw [h1]
    have h2 : goTruncate 1000000000 1000000000 = 1000000000 := by decide
    rw [h2, gridPoints_stop _ _ _ (by norm_num)]
  have hs : seriesTimes 1000000000 0 (emptyDB (1000000000 - lookback) 0) = [1000000000] := by
    unfold seriesTimes
    rw [hr]
    decide
  simp only [calculateCaffeineLevels]
  rw [hs]
  simp [calculateSumCaffeineLevel, emptyDB]

/-- C3 witness for the amended theorem. -/
theorem c3_no_invalid_range_witness :
    (0:Int) ≤ 1000000000 ∧ calculateCaffeineLevels emptyDB 1000000000 0 ≠ [] :=
  ⟨by norm_num, c3_no_invalid_range emptyDB 1000000000 0 (by norm_num)⟩


lemma foldl_add_eq_sum (f : CaffeineEvent → ℝ) :
    ∀ (l : List CaffeineEvent) (init : ℝ),
      l.foldl (fun acc e => acc + f e) init = init + (l.map f).sum := by
  intro l
  induction l with
  | nil => intro init; simp
  | cons e es ih => intro init; simp [ih]; ring

/-- The decay sum is the sum of the per-event contributions. -/
lemma sum_level_eq (halfLife : ℝ) (t : Int) (events : List CaffeineEvent) :
    calculateSumCaffeineLevel halfLife t events =
      (events.map
        (fun e => calculateCaffeineLevel e.Amount halfLife (t - e.Timestamp))).sum := by
  unfold calculateSumCaffeineLevel
  rw [foldl_add_eq_sum]
  ring

/-- A strictly future event contributes nothing. -/
lemma contribution_future (halfLife : ℝ) (A ts t : Int) (h : t < ts) :
    calculateCaffeineLevel A halfLife (t - ts) = 0 := by
  simp only [calculateCaffeineLevel]
  rw [if_pos]
  exact div_neg_of_neg_of_pos (by exact_mod_cast sub_neg.2 h) (by norm_num)

/-- Between two instants at or after the event, the contribution only
decays (for a nonnegative dose and positive half-life). -/
lemma contribution_antitone (halfLife : ℝ) (hh : 0 < halfLife) (A : Int)
    (hA : 0 ≤ A) (ts t1 t2 : Int) (h1 : ts ≤ t1) (h12 : t1 ≤ t2) :
    calculateCaffeineLevel A halfLife (t2 - ts) ≤
      calculateCaffeineLevel A halfLife (t1 - ts) := by
  have hn1 : ¬ (((t1 - ts : Int) : ℝ) / 3600000000000 < 0) :=
    not_lt.2 (div_nonneg (by exact_mod_cast sub_nonneg.2 h1) (by norm_num))
  have hn2 : ¬ (((t2 - ts : Int) : ℝ) / 3600000000000 < 0) :=
    not_lt.2 (div_nonneg (by exact_mod_cast sub_nonneg.2 (h1.trans h12)) (by norm_num))
  simp only [calculateCaffeineLevel]
  rw [if_neg hn2, if_neg hn1]
  apply mul_le_mul_of_nonneg_left _ (by exact_mod_cast hA)
  apply Real.rpow_le_rpow_of_exponent_ge (by norm_num) (by norm_num)
  have hcast : ((t1 - ts : Int) : ℝ) ≤ ((t2 - ts : Int) : ℝ) := by
    exact_mod_cast sub_le_sub_right h12 ts
  gcongr

/-- C1: a contribution is `0` strictly before the event, follows the
base-2 decay formula from the event on, and in particular halves after
one half-life (4 h) and quarters after two. -/
theorem c1_decay_contribution (A t ts : Int) :
    (t < ts → calculateCaffeineLevel A halfLifeHours (t - ts) = 0) ∧
    (ts ≤ t → calculateCaffeineLevel A halfLifeHours (t - ts) =
      (A : ℝ) * (0.5 : ℝ) ^ (((t - ts : Int) : ℝ) / 3600000000000 / 4)) ∧
    calculateCaffeineLevel A halfLifeHours 14400000000000 = (A : ℝ) / 2 ∧
    calculateCaffeineLevel A halfLifeHours 28800000000000 = (A : ℝ) / 4 := by
  refine ⟨fun h => contribution_future _ A ts t h, ?_, ?_, ?_⟩
  · intro h
    simp only [calculateCaffeineLevel, halfLifeHours]
    rw [if_neg (not_lt.2 (div_nonneg (by exact_mod_cast sub_nonneg.2 h) (by norm_num)))]
  · simp only [calculateCaffeineLevel, halfLifeHours]
    rw [if_neg (by norm_num)]
    rw [show ((14400000000000 : Int) : ℝ) / 3600000000000 / 4 = 1 by push_cast; norm_num]
    rw [Real.rpow_one]
    ring
  · simp only [calculateCaffeineLevel, halfLifeHours]
    rw [if_neg (by norm_num)]
    rw [show ((28800000000000 : Int) : ℝ) / 3600000000000 / 4 = ((2:ℕ):ℝ) by push_cast; norm_num]
    rw [Real.rpow_natCast]
    norm_num
    ring
  
/-- C1 witness: the future clamp one hour early and the formula one
half-life after an event at time zero. -/
theorem c1_decay_contribution_witness :
    calculateCaffeineLevel 100 halfLifeHours (0 - 3600000000000) = 0 ∧
    calculateCaffeineLevel 100 halfLifeHours (14400000000000 - 0) =
      (100 : ℝ) * (0.5 : ℝ) ^ (((14400000000000 - 0 : Int) : ℝ) / 3600000000000 / 4) :=
  ⟨(c1_decay_contribution 100 0 3600000000000).1 (by norm_num),
    (c1_decay_contribution 100 14400000000000 0).2.1 (by norm_num)⟩

/-- C6: the decay sum is superposition over events — the two-event level
is the sum of the one-event levels — and the empty event list gives level
zero everywhere. -/
theorem c6_superposition :
    (∀ (h : ℝ) (t : Int) (e1 e2 : CaffeineEvent),
      calculateSumCaffeineLevel h t [e1, e2] =
        calculateSumCaffeineLevel h t [e1] + calculateSumCaffeineLevel h t [e2]) ∧
    (∀ (h : ℝ) (t : Int), calculateSumCaffeineLevel h t [] = 0) := by
  constructor
  · intro h t e1 e2
    simp [calculateSumCaffeineLevel]
  · intro h t
    rfl

/-- C7 (amended): with nonnegative doses and no event in the half-open
interval `(t1, t2]`, the level at `t1` is at least the level at `t2`. -/
theorem c7_monotone_decay (halfLife : ℝ) (hh : 0 < halfLife)
    (events : List CaffeineEvent) (hA : ∀ e ∈ events, 0 ≤ e.Amount)
    (t1 t2 : Int) (h12 : t1 < t2)
    (hev : ∀ e ∈ events, ¬ (t1 < e.Timestamp ∧ e.Timestamp ≤ t2)) :
    calculateSumCaffeineLevel halfLife t2 events ≤
      calculateSumCaffeineLevel halfLife t1 events := by
  rw [sum_level_eq, sum_level_eq]
  apply List.sum_le_sum
  intro e he
  rcases le_or_lt e.Timestamp t1 with hts | hts
  · exact contribution_antitone halfLife hh e.Amount (hA e he) e.Timestamp t1 t2 hts h12.le
  · have ht2 : t2 < e.Timestamp := by
      have := hev e he
      omega
    rw [contribution_future halfLife e.Amount e.Timestamp t1 hts,
      contribution_future halfLife e.Amount e.Timestamp t2 ht2]

/-- C7 counterexample: `t1 = 0 < t2 = 1h`, the single event is at exactly
`t2` — so no event lies in the open interval `(t1, t2)` — yet the level
rises from 0 to 100, refuting the claim with the open interval. -/
theorem c7_counterexample :
    (0:Int) < 3600000000000 ∧
    (∀ e ∈ eventsC7, ¬ ((0:Int) < e.Timestamp ∧ e.Timestamp < 3600000000000)) ∧
    calculateSumCaffeineLevel halfLifeHours 0 eventsC7 <
      calculateSumCaffeineLevel halfLifeHours 3600000000000 eventsC7 := by
  refine ⟨by norm_num, by decide, ?_⟩
  have h0 : calculateSumCaffeineLevel halfLifeHours 0 eventsC7 = 0 := by
    rw [sum_level_eq]
    simp only [eventsC7, List.map, List.sum_cons, List.sum_nil]
    rw [contribution_future halfLifeHours 100 3600000000000 0 (by norm_num)]
    ring
  have h1 : calculateSumCaffeineLevel halfLifeHours 3600000000000 eventsC7 = 100 := by
    rw [sum_level_eq]
    simp only [eventsC7, List.map, List.sum_cons, List.sum_nil]
    simp only [calculateCaffeineLevel, halfLifeHours]
    rw [if_neg (by norm_num)]
    norm_num
  rw [h0, h1]
  norm_num

/-- C7 witness: one event at time 0, window `t1 = 0`, `t2 = 1h`. -/
theorem c7_monotone_decay_witness :
    (0:ℝ) < 4 ∧ (∀ e ∈ eventsC7W, 0 ≤ e.Amount) ∧ (0:Int) < 3600000000000 ∧
    (∀ e ∈ eventsC7W, ¬ ((0:Int) < e.Timestamp ∧ e.Timestamp ≤ 3600000000000)) ∧
    calculateSumCaffeineLevel 4 3600000000000 eventsC7W ≤
      calculateSumCaffeineLevel 4 0 eventsC7W :=
  ⟨by norm_num, by decide, by norm_num, by decide,
    c7_monotone_decay 4 (by norm_num) eventsC7W (by decide) 0 3600000000000
      (by norm_num) (by decide)⟩


lemma mem_insertCmp {x y : Int} {l : List Int} :
    x ∈ insertCmp y l ↔ x = y ∨ x ∈ l := by
  induction l with
  | nil => simp [insertCmp]
  | cons a l ih =>
    simp only [insertCmp]
    split
    · simp [List.mem_cons]
    · simp only [List.mem_cons, ih]
      tauto

lemma mem_sortCmp {x : Int} {l : List Int} : x ∈ sortCmp l ↔ x ∈ l := by
  induction l with
  | nil => simp [sortCmp]
  | cons a l ih => simp [sortCmp, mem_insertCmp, ih]

/-- On whole-second timestamps the comparator order is the timestamp
order: the truncated second-difference is `≤ 0` exactly when `a ≤ b`. -/
lemma levelLe_iff {a b : Int} (h : (1000000000:Int) ∣ (a - b)) :
    levelLe a b = true ↔ a ≤ b := by
  obtain ⟨k, hk⟩ := h
  have hcmp : levelCmp a b = k := by
    rw [levelCmp, hk, Int.mul_tdiv_cancel_left k (by norm_num)]
  simp only [levelLe, hcmp, decide_eq_true_eq]
  omega

lemma pairwise_insertCmp (x : Int) (l : List Int)
    (hx : (1000000000:Int) ∣ x) (hl : ∀ y ∈ l, (1000000000:Int) ∣ y)
    (hs : List.Pairwise (· ≤ ·) l) :
    List.Pairwise (· ≤ ·) (insertCmp x l) := by
  induction l with
  | nil => simp [insertCmp]
  | cons y ys ih =>
    have hdy : (1000000000:Int) ∣ (x - y) :=
      dvd_sub hx (hl y (List.mem_cons_self y ys))
    have hys := List.pairwise_cons.1 hs
    simp only [insertCmp]
    split
    · rename_i hle
      have hxy : x ≤ y := (levelLe_iff hdy).1 hle
      refine List.Pairwise.cons ?_ hs
      intro z hz
      rcases List.mem_cons.1 hz with rfl | hz
      · exact hxy
      · exact hxy.trans (hys.1 z hz)
    · rename_i hnle
      have hyx : y ≤ x := le_of_not_le (fun hxy => hnle ((levelLe_iff hdy).2 hxy))
      refine List.Pairwise.cons ?_
        (ih (fun z hz => hl z (List.mem_cons_of_mem y hz)) hys.2)
      intro z hz
      rcases mem_insertCmp.1 hz with rfl | hz
      · exact hyx
      · exact hys.1 z hz

/-- The comparator sort really sorts by timestamp once every element is a
whole number of seconds. -/
lemma pairwise_sortCmp (l : List Int) (hl : ∀ y ∈ l, (1000000000:Int) ∣ y) :
    List.Pairwise (· ≤ ·) (sortCmp l) := by
  induction l with
  | nil => simp [sortCmp]
  | cons x xs ih =>
    simp only [sortCmp]
    exact pairwise_insertCmp x (sortCmp xs) (hl x (List.mem_cons_self x xs))
      (fun y hy => hl y (List.mem_cons_of_mem x (mem_sortCmp.1 hy)))
      (ih fun y hy => hl y (List.mem_cons_of_mem x hy))

/-- Every grid point is a whole number of seconds (the step is a ladder
member and truncation aligns the first point to the step). -/
lemma rangeTimes_dvd (start endT : Int) :
    ∀ x ∈ rangeTimes start endT, (1000000000:Int) ∣ x := by
  intro x hx
  have hd := rangeStep_pos start endT
  have hdvd : (1000000000:Int) ∣ rangeStep start endT :=
    mem_snapTimes_dvd _ (snapDown_mem _)
  obtain ⟨-, -, -, -, h5⟩ := gridPoints_props (rangeStep start endT) hd
    ((endT - goTruncate start (rangeStep start endT)).toNat) endT
    (goTruncate start (rangeStep start endT)) le_rfl
  obtain ⟨k, hk⟩ := h5 x hx
  have ht0 : (1000000000:Int) ∣ goTruncate start (rangeStep start endT) :=
    dvd_trans hdvd (goTruncate_dvd start _ hd)
  rw [hk]
  exact dvd_add ht0 (hdvd.mul_left _)

lemma assembled_dvd (start endT : Int) (events : List CaffeineEvent)
    (hev : ∀ e ∈ events, (1000000000:Int) ∣ e.Timestamp) :
    ∀ x ∈ sortCmp (rangeTimes start endT) ++ knotTimes events,
      (1000000000:Int) ∣ x := by
  intro x hx
  rcases List.mem_append.1 hx with hx | hx
  · exact rangeTimes_dvd start endT x (mem_sortCmp.1 hx)
  · simp only [knotTimes, List.mem_flatMap, List.mem_cons,
      List.not_mem_nil, or_false] at hx
    obtain ⟨e, he, hx | hx⟩ := hx
    · exact hx ▸ hev e he
    · exact hx ▸ dvd_sub (hev e he) (by norm_num)

/-- The timestamps of the output series are exactly the sorted timestamp
skeleton (each sample pairs a skeleton timestamp with its level). -/
lemma levels_map_fst (db : Int → Int → List CaffeineEvent) (start endT : Int) :
    (calculateCaffeineLevels db start endT).map Prod.fst =
      seriesTimes start endT (db (start - lookback) endT) := by
  simp only [calculateCaffeineLevels, List.map_map]
  exact List.map_id _

/-- C4 (amended): whenever every fetched event timestamp is a whole
number of seconds — as the repository's database layer guarantees, since
it builds timestamps with `time.Unix(seconds, 0)` — the returned series
is non-decreasing by timestamp. -/
theorem c4_sorted_when_whole_seconds (db : Int → Int → List CaffeineEvent)
    (start endT : Int)
    (hev : ∀ e ∈ db (start - lookback) endT, (1000000000:Int) ∣ e.Timestamp) :
    List.Chain' (· ≤ ·) ((calculateCaffeineLevels db start endT).map Prod.fst) := by
  rw [levels_map_fst]
  unfold seriesTimes
  exact (pairwise_sortCmp _ (assembled_dvd start endT _ hev)).chain'

/-- C4 counterexample: with a sub-second event timestamp (10.5 s) in a
`[10 s, 20 s]` window, the comparator cannot distinguish timestamps less
than a second apart, and the sorted output places the 10.5 s knot after
the 11 s grid point: the series is not non-decreasing by timestamp. -/
theorem c4_counterexample :
    ¬ List.Chain' (· ≤ ·)
      ((calculateCaffeineLevels subSecondDB 10000000000 20000000000).map Prod.fst) := by
  rw [levels_map_fst]
  have h1 : rangeStep 10000000000 20000000000 = 1000000000 := by decide
  have h2 : goTruncate 10000000000 1000000000 = 10000000000 := by decide
  have hr : rangeTimes 10000000000 20000000000 =
      [10000000000, 11000000000, 12000000000, 13000000000, 14000000000,
       15000000000, 16000000000, 17000000000, 18000000000, 19000000000,
       20000000000] := by
    have hfe := rangeLoopFuel_eq 1000000000 (by norm_num) 10000000001
      20000000000 10000000000 (by omega)
    have hv : rangeLoopFuel 10000000001 1000000000 20000000000 10000000000 =
        some [10000000000, 11000000000, 12000000000, 13000000000, 14000000000,
          15000000000, 16000000000, 17000000000, 18000000000, 19000000000,
          20000000000] := by decide
    rw [hv] at hfe
    unfold rangeTimes
    rw [h1, h2]
    exact (Option.some.inj hfe).symm
  have hs : seriesTimes 10000000000 20000000000
      (subSecondDB (10000000000 - lookback) 20000000000) =
      [-49500000000, 10000000000, 11000000000, 10500000000, 12000000000,
       13000000000, 14000000000, 15000000000, 16000000000, 17000000000,
       18000000000, 19000000000, 20000000000] := by
    unfold seriesTimes
    rw [hr]
    decide
  rw [hs]
  simp [List.chain'_cons]

/-- C4 witness: a whole-second event in the `[10 s, 20 s]` window. -/
theorem c4_sorted_when_whole_seconds_witness :
    (∀ e ∈ wholeSecondDB (10000000000 - lookback) 20000000000,
      (1000000000:Int) ∣ e.Timestamp) ∧
    List.Chain' (· ≤ ·)
      ((calculateCaffeineLevels wholeSecondDB 10000000000 20000000000).map Prod.fst) :=
  ⟨by decide,
    c4_sorted_when_whole_seconds wholeSecondDB 10000000000 20000000000 (by decide)⟩

/-- C10: two knot samples (the event's timestamp and one minute before)
are emitted for every fetched event of the extended window — there is no
filtering to `[start, end]` — so an event before `start` puts samples
before `start` into the returned series. -/
theorem c10_knots_for_all_fetched_events (db : Int → Int → List CaffeineEvent)
    (start endT : Int) (e : CaffeineEvent)
    (he : e ∈ db (start - lookback) endT) :
    e.Timestamp ∈ (calculateCaffeineLevels db start endT).map Prod.fst ∧
    e.Timestamp - 60000000000 ∈ (calculateCaffeineLevels db start endT).map Prod.fst ∧
    (e.Timestamp < start →
      ∃ x ∈ (calculateCaffeineLevels db start endT).map Prod.fst, x < start) := by
  rw [levels_map_fst]
  have hmem : ∀ y ∈ knotTimes (db (start - lookback) endT),
      y ∈ seriesTimes start endT (db (start - lookback) endT) := by
    intro y hy
    unfold seriesTimes
    exact mem_sortCmp.2 (List.mem_append_right _ hy)
  have h1 : e.Timestamp ∈ knotTimes (db (start - lookback) endT) := by
    simp only [knotTimes, List.mem_flatMap, List.mem_cons, List.not_mem_nil, or_false]
    exact ⟨e, he, Or.inl rfl⟩
  have h2 : e.Timestamp - 60000000000 ∈ knotTimes (db (start - lookback) endT) := by
    simp only [knotTimes, List.mem_flatMap, List.mem_cons, List.not_mem_nil, or_false]
    exact ⟨e, he, Or.inr rfl⟩
  exact ⟨hmem _ h1, hmem _ h2, fun hlt => ⟨e.Timestamp, hmem _ h1, hlt⟩⟩

/-- C10 witness: the early event's knots are in the output of the
`[0, 24h]` query, including a sample before `start = 0`. -/
theorem c10_knots_witness :
    eEarly ∈ earlyEventDB (0 - lookback) 86400000000000 ∧
    (eEarly.Timestamp ∈
        (calculateCaffeineLevels earlyEventDB 0 86400000000000).map Prod.fst ∧
      eEarly.Timestamp - 60000000000 ∈
        (calculateCaffeineLevels earlyEventDB 0 86400000000000).map Prod.fst ∧
      (eEarly.Timestamp < 0 →
        ∃ x ∈ (calculateCaffeineLevels earlyEventDB 0 86400000000000).map Prod.fst,
          x < 0)) :=
  ⟨by decide,
    c10_knots_for_all_fetched_events earlyEventDB 0 86400000000000 eEarly (by decide)⟩

end Txn
